import Mathlib

/-!
Verification development for the beets-vocadb metadata adapter
(`src/vocadb.py`).  The Python module is shallowly embedded below:

* the JSON payloads consumed by the adapter become explicit record types
  with `Option` fields exactly where the code guards with `'key' in item`
  (a field accessed unconditionally is modelled as a required field, since
  its absence makes the Python raise before producing any result);
* HTTP transport and JSON decoding are modelled by the `Fetched` type:
  `failure` is an exception thrown by `requests.get`, `badJson` is a
  response whose body fails `r.json()`, and `payload` is a decoded body;
* Python exceptions escaping a function are modelled with `Except PyErr`;
* the mutable loop state of the artist-disambiguation block is threaded
  through `ResolveState`.

Comments on each definition name the lines of `src/vocadb.py` it embeds.
-/

/-- Python exception escaping an adapter function (`requests` errors,
`KeyError` from a missing dict key, `TypeError` from iterating `None`). -/
inductive PyErr where
  | transport
  | keyError
  | typeError
  deriving Repr, DecidableEq

/-- Outcome of one `requests.get` + `r.json()` round trip: a raised
transport exception, a body that fails JSON decoding, or a decoded payload. -/
inductive Fetched (α : Type) where
  | failure
  | badJson
  | payload (a : α)
  deriving Repr, DecidableEq

/-- One entry of an entity's `names` list: `{language, value}`. -/
structure WireName where
  language : String
  value : String
  deriving Repr, DecidableEq

/-- The name-resolution slice shared by album and song payloads:
`names` (optional list), `defaultName`, `defaultNameLanguage`. -/
structure NamedEntity where
  names : Option (List WireName)
  defaultName : String
  defaultNameLanguage : String
  deriving Repr, DecidableEq

/-- The nested `artist` object inside an artist credit: `{name, id}`. -/
structure WireRef where
  name : String
  id : Int
  deriving Repr, DecidableEq

/-- An album-level artist credit as used on lines 188-235: optional nested
`artist` object, bare `name`, comma-separated `categories` and `roles`
strings, and the `isSupport` flag. -/
structure WireAlbumArtist where
  artist : Option WireRef
  name : String
  categories : String
  isSupport : Bool
  roles : String
  deriving Repr, DecidableEq

/-- A song-level artist credit as used on lines 149-165. -/
structure WireSongArtist where
  artist : Option WireRef
  name : String
  roles : String
  deriving Repr, DecidableEq

/-- One entry of an album's `discs` list. -/
structure WireDisc where
  discNumber : Int
  name : String
  deriving Repr, DecidableEq

/-- The `releaseDate` object; each component is checked with
`'year' in item['releaseDate']` etc. (lines 220-222). -/
structure WireReleaseDate where
  year : Option Int
  month : Option Int
  day : Option Int
  deriving Repr, DecidableEq

/-- The nested `song` object of a track payload (lines 133-165). -/
structure WireSong extends NamedEntity where
  id : Int
  artistString : String
  lengthSeconds : Int
  artists : List WireSongArtist
  deriving Repr, DecidableEq

/-- One track payload from `/api/albums/{id}/tracks`: the nested `song`
object may be missing entirely (lines 131-136), `discNumber` and
`trackNumber` are accessed unconditionally (lines 146-147). -/
structure WireTrack where
  song : Option WireSong
  discNumber : Int
  trackNumber : Int
  deriving Repr, DecidableEq

/-- An album payload: fields mirror the accesses in `get_album_info`
(lines 174-236).  `artists` is optional because line 185 guards with
`'artists' in item`; line 232 then iterates it unconditionally. -/
structure WireAlbum extends NamedEntity where
  id : Int
  catalogNumber : Option String
  artistString : String
  discType : String
  artists : Option (List WireAlbumArtist)
  releaseDate : WireReleaseDate
  discs : Option (List WireDisc)
  deriving Repr, DecidableEq

/-- Decoded body of the search endpoint; `get_albums` reads
`item['items']` (line 77). -/
structure SearchResponse where
  items : List WireAlbum
  deriving Repr, DecidableEq

/-- The tag object nested in one entry of a `tags` list
(`_tag['tag']['name']`, line 288). -/
structure WireTagUse where
  name : String
  deriving Repr, DecidableEq

/-- One entry of a `tags` list. -/
structure WireTagEntry where
  tag : WireTagUse
  deriving Repr, DecidableEq

/-- Decoded body of the `fields=Tags` endpoints; line 287 guards with
`'tags' in obj`. -/
structure TagsResponse where
  tags : Option (List WireTagEntry)
  deriving Repr, DecidableEq

/-- The adapter's configuration snapshot: the defaults installed by
`__init__` (lines 14-27) plus the instance attribute `base_url`.
`lang` is the already-split `lang-priority` value (line 27). -/
structure Config where
  base_url : String
  source_weight : Int
  canonical_artists : Bool
  separator : String
  whitelist : Bool
  artist_priority : List String
  circles_exclude : List String
  genres : Bool
  lang : List String
  deriving Repr, DecidableEq

/-- Configuration of a freshly constructed `VocaDBPlugin`
(lines 12-27): `base_url` is `http://vocadb.net` and
`lang = 'English'.split(',') = ["English"]`. -/
def VocaDBPlugin_config : Config :=
  { base_url := "http://vocadb.net"
    source_weight := 0
    canonical_artists := true
    separator := ", "
    whitelist := true
    artist_priority := ["producers", "circles"]
    circles_exclude := []
    genres := true
    lang := ["English"] }

/-- Configuration of a freshly constructed `UtaiteDBPlugin`
(lines 310-313): the subclass runs the same `__init__` and then
overwrites only `base_url`. -/
def UtaiteDBPlugin_config : Config :=
  { VocaDBPlugin_config with base_url := "http://utaitedb.net" }

/-- The host's `TrackInfo` record, restricted to the fields this adapter
ever sets.  Fields not passed at a construction site keep the host's
default `None`; `index` and `disctitle` are assigned afterwards by the
loop on lines 239-247. -/
structure TrackInfo where
  title : String
  track_id : Int
  artist : Option String := none
  artist_id : Option Int := none
  length : Option Int := none
  medium : Option Int := none
  medium_index : Int := 0
  medium_total : Option Int := none
  artist_credit : Option String := none
  data_source : String := ""
  lyricist : Option String := none
  composer : Option String := none
  arranger : Option String := none
  index : Option Int := none
  disctitle : Option String := none
  deriving Repr, DecidableEq

/-- The host's `AlbumInfo` record, restricted to the fields passed on
lines 262-268. -/
structure AlbumInfo where
  album : String
  album_id : Int
  artist : String
  artist_id : Option Int
  tracks : List TrackInfo
  albumtype : String
  va : Bool
  year : Option Int
  month : Option Int
  day : Option Int
  label : Option String
  mediums : Nat
  artist_sort : Option String
  catalognum : Option String
  script : String
  language : String
  country : Option String
  artist_credit : Option String
  data_source : String
  data_url : String
  deriving Repr, DecidableEq

/-! ## Query normalizer (`get_albums`, lines 48-58) -/

/-- Python `\w` under `re.UNICODE`, as used by the `\W+` substitution on
line 55.  Exact on ASCII (letters, digits, underscore); code points
outside ASCII are approximated as word characters, which is accurate for
the letters and digits that occur in album titles. -/
def isWordChar (c : Char) : Bool :=
  c.isAlphanum || c == '_' || decide (c.val ≥ 128)

/-- Worker for the `re.sub(r'(?u)\W+', ' ', query)` on line 55: the flag
records whether the previous character was part of a non-word run whose
single replacement space has already been emitted. -/
def collapseGo : Bool → List Char → List Char
  | _, [] => []
  | inRun, c :: rest =>
    if isWordChar c then c :: collapseGo false rest
    else if inRun then collapseGo true rest
    else ' ' :: collapseGo true rest

/-- `re.sub(r'(?u)\W+', ' ', query)` (line 55): every maximal run of
non-word characters becomes a single space. -/
def wordSub (cs : List Char) : List Char :=
  collapseGo false cs

/-- Python `\s` on the ASCII range, for the `\s*` of the pattern on
line 58. -/
def isPySpace (c : Char) : Bool :=
  c == ' ' || c == '\t' || c == '\n' || c == '\r' || c == '\x0b' || c == '\x0c'

/-- Case-insensitive literal match of `pat` (given lowercase) against the
front of `cs`; on success returns the remainder. -/
def lcMatch : List Char → List Char → Option (List Char)
  | [], cs => some cs
  | _ :: _, [] => none
  | p :: ps, c :: cs => if c.toLower == p then lcMatch ps cs else none

/-- Match of the regex `(?i)(CD|disc)\s*\d+` (line 58, without its
leading `\b`) at the front of `cs`; on success returns the remainder
after the match.  The alternation is deterministic (`cd` and `disc`
differ at their first character) and `\s*\d+` cannot match more or fewer
characters by backtracking, since whitespace and digits are disjoint. -/
def matchMedium (cs : List Char) : Option (List Char) :=
  match (match lcMatch ['c', 'd'] cs with
         | some r => some r
         | none => lcMatch ['d', 'i', 's', 'c'] cs) with
  | none => none
  | some r =>
    let r2 := r.dropWhile isPySpace
    if (r2.takeWhile Char.isDigit).isEmpty then none
    else some (r2.dropWhile Char.isDigit)

/-- Number of characters consumed by a `(?i)(CD|disc)\s*\d+` match at
the front of `cs` (always at least three). -/
def matchMediumLen (cs : List Char) : Option Nat :=
  (matchMedium cs).map (fun rem => cs.length - rem.length)

/-- Worker for `re.sub(r'(?i)\b(CD|disc)\s*\d+', '', query)` (line 58):
scan left to right, attempting the pattern only where the `\b` holds,
i.e. where the previous character (a digit when we have just removed a
match) was not a word character.  `skip` counts characters of a match
still being deleted; once it reaches zero the previous character was the
match's final digit, a word character. -/
def stripMediumGo : Bool → Nat → List Char → List Char
  | _, _, [] => []
  | _, skip + 1, _ :: rest => stripMediumGo true skip rest
  | prevWord, 0, c :: rest =>
    if prevWord then c :: stripMediumGo (isWordChar c) 0 rest
    else
      match matchMediumLen (c :: rest) with
      | some n => stripMediumGo true (n - 1) rest
      | none => c :: stripMediumGo (isWordChar c) 0 rest

/-- `re.sub(r'(?i)\b(CD|disc)\s*\d+', '', query)` (line 58). -/
def stripMedium (cs : List Char) : List Char :=
  stripMediumGo false 0 cs

/-- The two-stage query normalization of `get_albums` (lines 55-58). -/
def normalize_query (query : String) : String :=
  String.mk (stripMedium (wordSub query.toList))

/-- Modelled from the spec: the claim describes the second stage as
stripping every token matching `(?i)(CD|disc)\s*\d+`, with no mention of
the word-boundary `\b` the source pattern carries; this worker attempts
the pattern at every position. -/
def stripMediumNoBoundaryGo : Nat → List Char → List Char
  | _, [] => []
  | skip + 1, _ :: rest => stripMediumNoBoundaryGo skip rest
  | 0, c :: rest =>
    match matchMediumLen (c :: rest) with
    | some n => stripMediumNoBoundaryGo (n - 1) rest
    | none => c :: stripMediumNoBoundaryGo 0 rest

/-- Modelled from the spec: normalization as the claim literally states
it — collapse non-word runs, then strip every `(CD|disc)\s*\d+` token
with no word-boundary restriction. -/
def claim_normalize (query : String) : String :=
  String.mk (stripMediumNoBoundaryGo 0 (wordSub query.toList))

/-! ## Comma-separated role and category strings -/

/-- Worker for Python's `s.split(', ')`: split at every non-overlapping
occurrence of the two-character separator, left to right. -/
def splitCSGo (acc : List Char) : List Char → List (List Char)
  | [] => [acc.reverse]
  | ',' :: ' ' :: rest => acc.reverse :: splitCSGo [] rest
  | c :: rest => splitCSGo (c :: acc) rest

/-- Python's `s.split(', ')`, as applied to the wire format's `roles` and
`categories` strings (lines 152, 158, 164, 188-189, 199, 233). -/
def splitCommaSpace (s : String) : List String :=
  (splitCSGo [] s.toList).map String.mk

/-! ## Preferred-name resolver (`get_preferred_name`, lines 108-126) -/

/-- The nested loop pair of lines 112-119.  For each preferred language
the inner loop stops at the first name carrying that language tag
(line 117); the outer loop then stops only if the matched value is a
non-empty string (`if item_name:` on line 118), otherwise the next
preferred language is tried with `item_name` still empty. -/
def preferredScan (names : List WireName) : List String → Option (String × String)
  | [] => none
  | lang :: rest =>
    match names.find? (fun n => n.language == lang) with
    | some n => if n.value ≠ "" then some (n.value, n.language) else preferredScan names rest
    | none => preferredScan names rest

/-- `get_preferred_name` (lines 108-126): the scan runs only when the
preference list is non-empty, its first entry is a non-empty string and
the payload has a `names` key (line 111); an empty scan result falls back
to the default pair (lines 122-124). -/
def get_preferred_name (langs : List String) (item : NamedEntity) : String × String :=
  let scanned : Option (String × String) :=
    match langs, item.names with
    | l0 :: _, some ns => if l0 ≠ "" then preferredScan ns langs else none
    | _, _ => none
  match scanned with
  | some p => p
  | none => (item.defaultName, item.defaultNameLanguage)

/-- Modelled from the spec for comparison: the amended statement of
preferred-name resolution, phrased over `List.filterMap`/`head?` instead
of the source's nested loops — pick the first preferred language whose
first entity-order match has a non-empty value. -/
def preferred_name_spec (langs : List String) (item : NamedEntity) : String × String :=
  let hit : Option (String × String) :=
    match langs, item.names with
    | l0 :: _, some ns =>
      if l0 ≠ "" then
        (langs.filterMap (fun l =>
          match ns.find? (fun n => n.language == l) with
          | some n => if n.value ≠ "" then some (n.value, n.language) else none
          | none => none)).head?
      else none
    | _, _ => none
  hit.getD (item.defaultName, item.defaultNameLanguage)

/-! ## Track conversion (`get_track_info`, lines 128-172) -/

/-- The name chosen for a song-level credit:
`_artist['artist']['name'] if 'artist' in _artist else _artist['name']`
(lines 150, 156, 162). -/
def songArtistName (a : WireSongArtist) : String :=
  match a.artist with
  | some ar => ar.name
  | none => a.name

/-- One of the three contributor joins of lines 149-165: collect the
names of the credits whose comma-separated `roles` contain `role`, join
them with the configured separator, and map an empty join to `None`
(the trailing `or None`). -/
def roleJoin (sep : String) (role : String) (artists : List WireSongArtist) : Option String :=
  let s := String.intercalate sep
    (artists.filterMap (fun a =>
      if (splitCommaSpace a.roles).contains role then some (songArtistName a) else none))
  if s = "" then none else some s

/-- The placeholder produced when a track payload has no nested `song`
object (line 136). -/
def dummyTrack : TrackInfo :=
  { title := "dummy_title", track_id := 0, medium_index := 0,
    medium_total := none, data_source := "VocaDB" }

/-- `get_track_info` (lines 128-172).  Only the `item['song']` access is
inside the `try` (lines 131-136); every other field of a present song is
accessed unconditionally, hence required in `WireSong`. -/
def get_track_info (cfg : Config) (item : WireTrack) : TrackInfo :=
  match item.song with
  | none => dummyTrack
  | some song =>
    let (title, _) := get_preferred_name cfg.lang song.toNamedEntity
    { title := title
      track_id := song.id
      artist := some song.artistString
      artist_id := none
      length := some song.lengthSeconds
      medium := some item.discNumber
      medium_index := item.trackNumber
      medium_total := none
      artist_credit := none
      data_source := "VocaDB"
      lyricist := roleJoin cfg.separator "Lyricist" song.artists
      composer := roleJoin cfg.separator "Composer" song.artists
      arranger := roleJoin cfg.separator "Arranger" song.artists }

/-! ## Artist disambiguation (`get_album_info`, lines 179-217) -/

/-- The mutable locals of the disambiguation block: `artist`,
`artist_id`, `artist_credit` and the `artist_corrected` flag
(lines 179-187). -/
structure ResolveState where
  artist : String
  artist_id : Option Int
  artist_credit : Option String
  artist_corrected : Bool
  deriving Repr, DecidableEq

/-- The `for _artist in circles` loop (lines 193-206).  A candidate with
a nested `artist` object whose name is excluded — unless more than one
producer exists — executes `break`, ending the whole loop with the state
unchanged (lines 195-197); otherwise a candidate with the `Default` role,
or any candidate when the original artist string was the multi-artist
sentinel, is adopted and the loop breaks (lines 199-204); a candidate
without a nested `artist` object overwrites `artist` with its bare name
and the loop continues (lines 205-206). -/
def circlesLoop (exclude : List String) (producersLen : Nat) (origArtist : String) :
    ResolveState → List WireAlbumArtist → ResolveState
  | st, [] => st
  | st, c :: rest =>
    match c.artist with
    | some ar =>
      if exclude.contains ar.name && !(producersLen > 1 : Bool) then st
      else if (splitCommaSpace c.roles).contains "Default" || origArtist == "Various artists" then
        { artist := ar.name, artist_id := some ar.id,
          artist_credit := some origArtist, artist_corrected := true }
      else circlesLoop exclude producersLen origArtist st rest
    | none => circlesLoop exclude producersLen origArtist { st with artist := c.name } rest

/-- The `elif val == 'producers'` branch (lines 208-214): a single
producer candidate is adopted, anything else leaves the state alone. -/
def producersTier (origArtist : String) (producers : List WireAlbumArtist)
    (st : ResolveState) : ResolveState :=
  match producers with
  | [p] =>
    { artist := (match p.artist with | some ar => ar.name | none => p.name)
      artist_id := (match p.artist with | some ar => some ar.id | none => none)
      artist_credit := some origArtist
      artist_corrected := true }
  | _ => st

/-- The `for val in self.config['artist_priority']` loop (lines 191-217):
run the tier named by each entry in order and stop as soon as
`artist_corrected` is set. -/
def priorityLoop (exclude : List String) (producers circles : List WireAlbumArtist)
    (origArtist : String) : ResolveState → List String → ResolveState
  | st, [] => st
  | st, val :: rest =>
    let st2 :=
      if val = "circles" then circlesLoop exclude producers.length origArtist st circles
      else if val = "producers" then producersTier origArtist producers st
      else st
    if st2.artist_corrected then st2
    else priorityLoop exclude producers circles origArtist st2 rest

/-- A non-support credit whose comma-separated `categories` contain
`cat` (the producer/circle filters of lines 188-189). -/
def inCategory (cat : String) (a : WireAlbumArtist) : Bool :=
  (splitCommaSpace a.categories).contains cat && !a.isSupport

/-- The whole guarded disambiguation block (lines 184-217), producing the
final values of `artist`, `artist_id`, `artist_credit`: it runs only when
the payload has an `artists` key and canonical mode is off (line 185). -/
def resolveArtist (cfg : Config) (item : WireAlbum) : ResolveState :=
  let st0 : ResolveState :=
    { artist := item.artistString, artist_id := none,
      artist_credit := none, artist_corrected := false }
  match item.artists with
  | some arts =>
    if !cfg.canonical_artists then
      let producers := arts.filter (inCategory "Producer")
      let circles := arts.filter (inCategory "Circle")
      priorityLoop cfg.circles_exclude producers circles item.artistString st0
        cfg.artist_priority
    else st0
  | none => st0

/-! ## Post-resolution artist cleanup (lines 250-260) -/

/-- The literal `feat.` of the pattern on line 252. -/
def featMarker : List Char := ['f', 'e', 'a', 't', '.']

/-- Literal list-prefix test (case-sensitive, as the pattern is). -/
def listStartsWith : List Char → List Char → Bool
  | [], _ => true
  | _ :: _, [] => false
  | p :: ps, c :: cs => p == c && listStartsWith ps cs

/-- Group 1 of `re.search(r'(^.*)(\s+feat\.)', artist)` (line 252): the
greedy anchored `.*` makes the match split at the last position where a
single whitespace character is immediately followed by `feat.` (any
earlier whitespace of the run is swallowed by `.*`, since `.` matches a
space); `none` models `re.search` returning `None`, in which case the
`.group(1)` call raises and the `except: pass` leaves `artist` as is.
Newlines, which `.` would refuse, do not occur in artist strings. -/
def featHead : List Char → Option (List Char)
  | [] => none
  | c :: rest =>
    match featHead rest with
    | some p => some (c :: p)
    | none => if isPySpace c && listStartsWith featMarker rest then some [] else none

/-- Lines 250-260: truncate at the `feat.` marker and swap commas for
semicolons when the pattern matches (the `except: pass` makes a failed
search a no-op), then recapitalize the multi-artist sentinel. -/
def cleanupArtist (artist : String) : String :=
  let artist :=
    match featHead artist.toList with
    | some p => String.mk (p.map (fun c => if c = ',' then ';' else c))
    | none => artist
  if artist = "Various artists" then "Various Artists" else artist

/-! ## Track post-processing (`get_album_info`, lines 239-247) -/

/-- Lookup in the disc-title dict of line 229; a Python dict comprehension
lets a later duplicate key overwrite an earlier one, hence the fold. -/
def pyDictGet (m : List (Int × String)) (k : Int) : Option String :=
  m.foldl (fun acc p => if p.1 == k then some p.2 else acc) none

/-- The disc-title assignment of lines 245-247: it requires a non-empty
dict, a truthy (present and non-zero) `medium`, a present key and a
non-empty title. -/
def applyDisctitle (disctitles : Option (List (Int × String))) (t : TrackInfo) : TrackInfo :=
  match disctitles with
  | none => t
  | some m =>
    if m ≠ [] then
      match t.medium with
      | some md =>
        if md ≠ 0 then
          match pyDictGet m md with
          | some nm => if nm ≠ "" then { t with disctitle := some nm } else t
          | none => t
        else t
      | none => t
    else t

/-- The reconciliation loop of lines 239-247: thread the running
`track_index` through the track list, assigning each track its overall
`index` and its disc title, and return the final counter value. -/
def indexTracks (disctitles : Option (List (Int × String))) :
    Int → List TrackInfo → List TrackInfo × Int
  | ti, [] => ([], ti)
  | ti, t :: rest =>
    let ti2 := if t.medium_index > ti then t.medium_index else ti
    let t2 := applyDisctitle disctitles { t with index := some ti2 }
    let (rest2, fin) := indexTracks disctitles (ti2 + 1) rest
    (t2 :: rest2, fin)

/-! ## Album conversion and the public operations (lines 38-106, 174-268) -/

/-- `tracks_for_album_id` (lines 94-106): the `requests.get` is outside
the `try`, so a transport failure raises; a decode failure returns
`None`; otherwise every track payload is converted. -/
def tracks_for_album_id (cfg : Config) (resp : Fetched (List WireTrack)) :
    Except PyErr (Option (List TrackInfo)) :=
  match resp with
  | .failure => .error .transport
  | .badJson => .ok none
  | .payload ts => .ok (some (ts.map (get_track_info cfg)))

/-- `get_album_info` (lines 174-268).  `tracksResp` stands for the HTTP
round trip that `self.tracks_for_album_id(album_id)` performs inside the
function.  The checks happen in source order: the label scan iterates
`item['artists']` unconditionally (line 232, `KeyError` when absent), the
tracks call can raise (transport), and iterating a `None` tracks result
raises a `TypeError` (line 240). -/
def get_album_info (cfg : Config) (item : WireAlbum)
    (tracksResp : Fetched (List WireTrack)) : Except PyErr AlbumInfo :=
  let pn := get_preferred_name cfg.lang item.toNamedEntity
  let va := (item.artistString == "Various artists") || (item.discType == "Compilation")
  let st := resolveArtist cfg item
  let mediums := (item.discs.getD []).length
  let disctitles := item.discs.map (fun ds => ds.map (fun d => (d.discNumber, d.name)))
  match item.artists with
  | none => .error .keyError
  | some arts =>
    let label := (arts.find? (fun a => (splitCommaSpace a.categories).contains "Label")).map
      (fun a => a.name)
    match tracks_for_album_id cfg tracksResp with
    | .error e => .error e
    | .ok none => .error .typeError
    | .ok (some tracks) =>
      let tracks := (indexTracks disctitles 1 tracks).1
      .ok
        { album := pn.1
          album_id := item.id
          artist := cleanupArtist st.artist
          artist_id := st.artist_id
          tracks := tracks
          albumtype := item.discType
          va := va
          year := item.releaseDate.year
          month := item.releaseDate.month
          day := item.releaseDate.day
          label := label
          mediums := mediums
          artist_sort := none
          catalognum := item.catalogNumber
          script := "utf-8"
          language := pn.2
          country := none
          artist_credit := st.artist_credit
          data_source := "VocaDB"
          data_url := cfg.base_url ++ "/AL/" ++ toString item.id }

/-- `get_albums` (lines 48-77): normalize the query, fetch the search
endpoint (a transport failure raises), return `[]` on a decode failure,
and otherwise convert every returned album (the list comprehension stops
at the first conversion that raises).  `tracksFor` stands for the nested
per-album tracks round trip; `va_likely` is accepted and ignored exactly
as in the source. -/
def get_albums (cfg : Config) (fetch : String → Fetched SearchResponse)
    (tracksFor : Int → Fetched (List WireTrack)) (query : String)
    (_va_likely : Bool) : Except PyErr (List AlbumInfo) :=
  let q := normalize_query query
  match fetch q with
  | .failure => .error .transport
  | .badJson => .ok []
  | .payload resp => resp.items.mapM (fun a => get_album_info cfg a (tracksFor a.id))

/-- `candidates` (lines 38-46): the bare `except:` turns any exception
from `get_albums` into an empty candidate list. -/
def candidates (cfg : Config) (fetch : String → Fetched SearchResponse)
    (tracksFor : Int → Fetched (List WireTrack)) (album : String)
    (va_likely : Bool) : List AlbumInfo :=
  match get_albums cfg fetch tracksFor album va_likely with
  | .ok l => l
  | .error _ => []

/-- `album_for_id` (lines 82-92): only the `r.json()` call sits inside
the `try`, so a decode failure returns `None`, while a transport failure
from `requests.get` — and any exception out of `get_album_info` —
propagates to the caller. -/
def album_for_id (cfg : Config) (resp : Fetched WireAlbum)
    (tracksFor : Int → Fetched (List WireTrack)) : Except PyErr (Option AlbumInfo) :=
  match resp with
  | .failure => .error .transport
  | .badJson => .ok none
  | .payload item => (get_album_info cfg item (tracksFor item.id)).map some

/-! ## Distance, import hook and genre backfill (lines 31-36, 270-307) -/

/-- `album_distance` (lines 31-36), as the list of named weighted terms
added to the fresh `Distance`: a single `source` term when the
candidate's data source is this adapter's tag, nothing otherwise. -/
def album_distance (cfg : Config) (album_info : AlbumInfo) : List (String × Int) :=
  if album_info.data_source = "VocaDB" then [("source", cfg.source_weight)] else []

/-- The guard of the `imported` hook (lines 302-307): the task must be an
album import and its first item must carry the `data_source` field with
this adapter's tag (`none` models an item without the field). -/
def imported_runs (is_album : Bool) (first_item_data_source : Option String) : Bool :=
  is_album && first_item_data_source == some "VocaDB"

/-- The slice of a host library record that `add_genre_to_item`
touches. -/
structure HostItem where
  genre : String
  deriving Repr, DecidableEq

/-- `add_genre_to_item` for a single entity (lines 270-296; the recursive
walk over an album's tracks repeats this per track).  `lgResolve` stands
for the external `lastgenre` whitelist resolver.  A transport failure
raises (the `requests.get` of line 277 is outside the `try`); a decode
failure returns early with nothing stored (`(item, false)`); otherwise
the genre — empty unless a non-empty `tags` list is present — is written
to the item and the item is stored (`(updated item, true)`). -/
def add_genre_to_item (cfg : Config) (lgResolve : List String → String)
    (resp : Fetched TagsResponse) (item : HostItem) :
    Except PyErr (HostItem × Bool) :=
  match resp with
  | .failure => .error .transport
  | .badJson => .ok (item, false)
  | .payload obj =>
    let genre :=
      match obj.tags with
      | some ts =>
        if ts ≠ [] then
          let tagNames := ts.map (fun t => String.mk (t.tag.name.toList.map Char.toLower))
          if cfg.whitelist then lgResolve tagNames
          else String.intercalate cfg.separator tagNames
        else ""
      | none => ""
    .ok ({ item with genre := genre }, true)

/-! ## Helper lemmas -/

theorem preferredScan_eq_filterMap (ns : List WireName) (langs : List String) :
    preferredScan ns langs =
      (langs.filterMap (fun l =>
        match ns.find? (fun n => n.language == l) with
        | some n => if n.value ≠ "" then some (n.value, n.language) else none
        | none => none)).head? := by
  induction langs with
  | nil => simp [preferredScan]
  | cons l rest ih =>
    simp only [preferredScan, List.filterMap_cons]
    cases h : ns.find? (fun n => n.language == l) with
    | none => simpa [h] using ih
    | some n =>
      by_cases hv : n.value = "" <;> simp [h, hv, ih]

theorem resolveArtist_canonical (cfg : Config) (item : WireAlbum)
    (h : cfg.canonical_artists = true) :
    resolveArtist cfg item =
      { artist := item.artistString, artist_id := none,
        artist_credit := none, artist_corrected := false } := by
  unfold resolveArtist
  cases item.artists <;> simp [h]

theorem collapseGo_mem (cs : List Char) :
    ∀ b c, c ∈ collapseGo b cs → isWordChar c = true ∨ c = ' ' := by
  induction cs with
  | nil => intro b c h; simp [collapseGo] at h
  | cons d rest ih =>
    intro b c h
    simp only [collapseGo] at h
    by_cases hw : isWordChar d
    · simp only [hw, if_true, List.mem_cons] at h
      rcases h with h | h
      · left; rw [h]; exact hw
      · exact ih false c h
    · simp only [hw, if_false] at h
      cases b with
      | true => simpa using ih true c (by simpa using h)
      | false =>
        simp only [Bool.false_eq_true, if_false, List.mem_cons] at h
        rcases h with h | h
        · right; exact h
        · exact ih true c h

theorem collapseGo_true_head (cs : List Char) :
    ∀ x, (collapseGo true cs).head? = some x → x ≠ ' ' := by
  induction cs with
  | nil => intro x h; simp [collapseGo] at h
  | cons d rest ih =>
    intro x h
    simp only [collapseGo] at h
    by_cases hw : isWordChar d
    · simp only [hw, if_true, List.head?_cons, Option.some.injEq] at h
      subst h
      intro hx
      rw [hx] at hw
      simp [isWordChar] at hw
    · simp only [hw, if_false, if_true] at h
      exact ih x h

theorem collapseGo_chain (cs : List Char) :
    ∀ b, List.Chain' (fun a c => ¬(a = ' ' ∧ c = ' ')) (collapseGo b cs) := by
  induction cs with
  | nil => intro b; simp [collapseGo]
  | cons d rest ih =>
    intro b
    simp only [collapseGo]
    by_cases hw : isWordChar d
    · simp only [hw, if_true]
      rw [List.chain'_cons']
      refine ⟨?_, ih false⟩
      intro y _ hcon
      rcases hcon with ⟨hd, _⟩
      rw [hd] at hw
      simp [isWordChar] at hw
    · simp only [hw, if_false]
      cases b with
      | true => simpa using ih true
      | false =>
        simp only [Bool.false_eq_true, if_false]
        rw [List.chain'_cons']
        refine ⟨?_, ih true⟩
        intro y hy hcon
        rcases hcon with ⟨_, hy'⟩
        exact collapseGo_true_head rest y hy hy'

/-! ## Claims -/

/-- C1 counterexample: a transport failure during a single-id lookup is
not degraded to `null` — `album_for_id` raises it to the caller, because
the `requests.get` of line 84 sits outside the `try`.  The claim's
prediction for this input would be `.ok none`. -/
theorem C1_counterexample :
    album_for_id VocaDBPlugin_config Fetched.failure (fun _ => Fetched.badJson) =
      Except.error PyErr.transport ∧
    Except.error PyErr.transport ≠ (Except.ok none : Except PyErr (Option AlbumInfo)) := by
  constructor
  · rfl
  · intro h
    exact absurd h (by simp)

/-- C1 (amended): a free-text search degrades to an empty candidate list
on any transport or decode failure (the bare `except:` of `candidates`
catches everything), and a single-id lookup degrades to `null` on a
non-JSON response body; a transport failure during the single-id lookup,
however, is not caught and propagates to the caller. -/
theorem C1_amended :
    (∀ (cfg : Config) (tracksFor : Int → Fetched (List WireTrack))
        (query : String) (va : Bool),
      candidates cfg (fun _ => Fetched.failure) tracksFor query va = []) ∧
    (∀ (cfg : Config) (tracksFor : Int → Fetched (List WireTrack))
        (query : String) (va : Bool),
      candidates cfg (fun _ => Fetched.badJson) tracksFor query va = []) ∧
    (∀ (cfg : Config) (tracksFor : Int → Fetched (List WireTrack)),
      album_for_id cfg Fetched.badJson tracksFor = Except.ok none) := by
  refine ⟨?_, ?_, ?_⟩
  · intro cfg tracksFor query va
    rfl
  · intro cfg tracksFor query va
    rfl
  · intro cfg tracksFor
    rfl

/-- Concrete payload for C2: a release flagged multi-artist through its
`Compilation` disc type, carrying a single non-support producer
credit. -/
def c2_item : WireAlbum :=
  { names := none, defaultName := "Album2", defaultNameLanguage := "English",
    id := 7, catalogNumber := none, artistString := "OrigArtist",
    discType := "Compilation",
    artists := some [{ artist := some { name := "ProducerX", id := 42 },
                       name := "ProducerX", categories := "Producer",
                       isSupport := false, roles := "Default" }],
    releaseDate := { year := none, month := none, day := none }, discs := none }

/-- Configuration for C2: canonical mode disabled, everything else at the
adapter's defaults. -/
def c2_cfg : Config :=
  { VocaDBPlugin_config with canonical_artists := false }

/-- C2 counterexample: with canonical mode disabled, a release flagged
multi-artist (`va = true` via its `Compilation` disc type) is still
disambiguated — the guard on line 185 never consults the flag — so the
resolved artist becomes the producer's name, not the reported artist
string the claim requires. -/
theorem C2_counterexample :
    (get_album_info c2_cfg c2_item (Fetched.payload [])).map
        (fun ai => (ai.va, ai.artist, ai.artist_credit, ai.artist_id)) =
      Except.ok (true, "ProducerX", some "OrigArtist", some 42) ∧
    "ProducerX" ≠ "OrigArtist" := by
  constructor
  · rfl
  · intro h
    exact absurd h (by simp)

/-- C2 (amended): disambiguated artist resolution runs exactly when
canonical mode is disabled and the payload carries an `artists` list —
the multi-artist flag does not gate it.  When the canonical flag is
enabled, the artist fields come solely from the reported artist string
(subject only to the `feat.` truncation and sentinel recapitalization of
lines 250-260), with no credit override and no artist id; and a release
flagged multi-artist is still disambiguated when canonical mode is off,
as the second conjunct shows on a concrete compilation. -/
theorem C2_amended :
    (∀ (cfg : Config) (item : WireAlbum) (tr : Fetched (List WireTrack)),
      (get_album_info { cfg with canonical_artists := true } item tr).map
          (fun ai => (ai.artist, ai.artist_id, ai.artist_credit)) =
        (get_album_info { cfg with canonical_artists := true } item tr).map
          (fun _ => (cleanupArtist item.artistString, (none : Option Int),
            (none : Option String)))) ∧
    (get_album_info c2_cfg c2_item (Fetched.payload [])).map
        (fun ai => (ai.va, ai.artist_credit)) =
      Except.ok (true, some "OrigArtist") := by
  constructor
  · intro cfg item tr
    have hres := resolveArtist_canonical { cfg with canonical_artists := true } item rfl
    unfold get_album_info
    rw [hres]
    cases item.artists <;> cases tr <;> simp only [tracks_for_album_id] <;> rfl
  · rfl

/-- A non-support circle credit named `nm`, carrying a nested artist
object and the `Default` role, for the C3 scenarios. -/
def c3_circle (nm : String) : WireAlbumArtist :=
  { artist := some { name := nm, id := 10 }, name := nm, categories := "Circle",
    isSupport := false, roles := "Default" }

/-- A non-support producer credit named `nm`, for the C3 scenarios. -/
def c3_prod (nm : String) : WireAlbumArtist :=
  { artist := some { name := nm, id := 11 }, name := nm, categories := "Producer",
    isSupport := false, roles := "Default" }

/-- Configuration for C3: canonical mode disabled and the circle named
`Excl` excluded. -/
def c3_cfg : Config :=
  { VocaDBPlugin_config with
    canonical_artists := false,
    circles_exclude := ["Excl"] }

/-- Concrete payload for C3: two adoptable circle credits, the first of
them excluded, and no producer credit. -/
def c3_item : WireAlbum :=
  { names := none, defaultName := "Album3", defaultNameLanguage := "English",
    id := 8, catalogNumber := none, artistString := "OrigArtist",
    discType := "Album",
    artists := some [c3_circle "Excl", c3_circle "Good"],
    releaseDate := { year := none, month := none, day := none }, discs := none }

/-- The C3 payload with two producer credits added, making producer
attribution ambiguous. -/
def c3_item_twoproducers : WireAlbum :=
  { c3_item with
    artists := some [c3_circle "Excl", c3_circle "Good", c3_prod "P1", c3_prod "P2"] }

/-- C3 counterexample: an excluded circle candidate does not merely get
skipped — the `break` on line 197 aborts the whole circles loop, so the
second, non-excluded circle `Good` is never considered and the artist
stays the reported string with no credit override, where the claim
predicts `Good` adopted as primary artist. -/
theorem C3_counterexample :
    (get_album_info c3_cfg c3_item (Fetched.payload [])).map
        (fun ai => (ai.artist, ai.artist_credit)) =
      Except.ok ("OrigArtist", none) ∧
    "OrigArtist" ≠ "Good" := by
  refine ⟨rfl, by decide⟩

/-- C3 (amended): in the circles tier, a candidate with a nested artist
record whose name is in the exclusion list — unless more than one
producer candidate exists — aborts the whole tier, leaving the state
unchanged and the remaining circle candidates unconsidered; a candidate
that survives that check and has `Default` among its roles, or whose
original artist string was the multi-artist sentinel, is adopted as
primary artist with the original artist string stored as the credit
override; and (concretely) an excluded circle is still adopted when more
than one producer candidate exists. -/
theorem C3_amended :
    (∀ (ex : List String) (plen : Nat) (orig : String) (st : ResolveState)
        (c : WireAlbumArtist) (ar : WireRef) (rest : List WireAlbumArtist),
      c.artist = some ar → ex.contains ar.name = true → ¬ plen > 1 →
      circlesLoop ex plen orig st (c :: rest) = st) ∧
    (∀ (ex : List String) (plen : Nat) (orig : String) (st : ResolveState)
        (c : WireAlbumArtist) (ar : WireRef) (rest : List WireAlbumArtist),
      c.artist = some ar → (ex.contains ar.name = false ∨ plen > 1) →
      ((splitCommaSpace c.roles).contains "Default" = true ∨ orig = "Various artists") →
      circlesLoop ex plen orig st (c :: rest) =
        { artist := ar.name, artist_id := some ar.id,
          artist_credit := some orig, artist_corrected := true }) ∧
    (get_album_info c3_cfg c3_item_twoproducers (Fetched.payload [])).map
        (fun ai => (ai.artist, ai.artist_credit)) =
      Except.ok ("Excl", some "OrigArtist") := by
  refine ⟨?_, ?_, rfl⟩
  · intro ex plen orig st c ar rest hart hex hplen
    have hbreak : (ex.contains ar.name && !(decide (plen > 1))) = true := by
      rw [hex, decide_eq_false hplen]
      rfl
    simp only [circlesLoop, hart, hbreak, if_true]
  · intro ex plen orig st c ar rest hart hcond hdef
    have hbreak : (ex.contains ar.name && !(decide (plen > 1))) = false := by
      rcases hcond with h | h
      · rw [h]
        rfl
      · rw [decide_eq_true h]
        simp
    have hadopt : ((splitCommaSpace c.roles).contains "Default" ||
        orig == "Various artists") = true := by
      rcases hdef with h | h
      · rw [h]
        rfl
      · rw [h]
        simp
    simp only [circlesLoop, hart, hbreak, hadopt, if_true, Bool.false_eq_true, if_false]

/-- Witness for C3 (amended): the abort and adopt cases applied at
concrete inputs — a lone excluded circle with no producers leaves the
state untouched, and a non-excluded `Default` circle is adopted. -/
theorem C3_amended_witness :
    circlesLoop ["E"] 0 "O" ⟨"O", none, none, false⟩ [c3_circle "E"] =
      ⟨"O", none, none, false⟩ ∧
    circlesLoop [] 5 "O" ⟨"O", none, none, false⟩ [c3_circle "G"] =
      ⟨"G", some 10, some "O", true⟩ := by
  constructor
  · exact C3_amended.1 ["E"] 0 "O" ⟨"O", none, none, false⟩ (c3_circle "E")
      ⟨"E", 10⟩ [] rfl (by decide) (by decide)
  · exact C3_amended.2.1 [] 5 "O" ⟨"O", none, none, false⟩ (c3_circle "G")
      ⟨"G", 10⟩ [] rfl (Or.inl (by decide)) (Or.inl (by decide))

/-- Concrete entity for C4: the first name matching the first preferred
language carries an empty value. -/
def c4_entity : NamedEntity :=
  { names := some [{ language := "English", value := "" },
                   { language := "Japanese", value := "J" }],
    defaultName := "D", defaultNameLanguage := "Default" }

/-- C4 counterexample: with preference list `["English", "Japanese"]`,
the first match for the first preferred language is the empty-valued
`("", English)` pair — the claim says resolution returns that first
matching pair and stops there, but the code's `if item_name:` test
(line 118) treats the empty value as no match and moves on to Japanese,
returning `("J", "Japanese")`. -/
theorem C4_counterexample :
    get_preferred_name ["English", "Japanese"] c4_entity = ("J", "Japanese") ∧
    (c4_entity.names.getD []).find? (fun n => n.language == "English") =
      some { language := "English", value := "" } ∧
    (("J" : String), ("Japanese" : String)) ≠ (("" : String), ("English" : String)) := by
  refine ⟨rfl, rfl, by decide⟩

/-- C4 (amended): resolution iterates the preference list in order and,
for each preferred language, considers only the first entity-order name
with that language tag; the scan stops at the first such match whose
value is non-empty and returns that `(value, language)` pair; a match
with an empty value does not stop the scan.  If no preference list is
configured, its first entry is empty, the entity has no name list, or no
preferred language yields a non-empty value, the declared
`(defaultName, defaultNameLanguage)` pair is returned — so resolution
always yields exactly one pair, as the equivalence with the spec-side
function states. -/
theorem C4_amended (langs : List String) (item : NamedEntity) :
    get_preferred_name langs item = preferred_name_spec langs item := by
  unfold get_preferred_name preferred_name_spec
  cases langs with
  | nil => cases item.names <;> rfl
  | cons l0 rest =>
    cases h : item.names with
    | none => rfl
    | some ns =>
      by_cases h0 : l0 = ""
      · simp [h0]
      · simp only [h0, preferredScan_eq_filterMap, ne_eq, not_false_iff, if_true]
        cases hh : (((l0 :: rest).filterMap (fun l =>
          match ns.find? (fun n => n.language == l) with
          | some n => if n.value ≠ "" then some (n.value, n.language) else none
          | none => none)).head?) <;> simp [hh, Option.getD]

/-- The three tracks of the C5 instance, with within-disc indices
1, 2 and 5. -/
def c5_tracks : List TrackInfo :=
  [ { title := "T1", track_id := 1, medium_index := 1 },
    { title := "T2", track_id := 2, medium_index := 2 },
    { title := "T3", track_id := 3, medium_index := 5 } ]

/-- A song payload for the C5 wire-level instance. -/
def c5_song (t : String) (n : Int) : WireSong :=
  { names := none, defaultName := t, defaultNameLanguage := "English",
    id := n, artistString := "S", lengthSeconds := 100, artists := [] }

/-- The C5 wire-level track list, with within-disc indices 1, 2 and 5. -/
def c5_wiretracks : List WireTrack :=
  [ { song := some (c5_song "T1" 1), discNumber := 1, trackNumber := 1 },
    { song := some (c5_song "T2" 2), discNumber := 1, trackNumber := 2 },
    { song := some (c5_song "T3" 3), discNumber := 1, trackNumber := 5 } ]

/-- A plain album payload for the C5 instance. -/
def c5_item : WireAlbum :=
  { names := none, defaultName := "Album5", defaultNameLanguage := "English",
    id := 5, catalogNumber := none, artistString := "A", discType := "Album",
    artists := some [],
    releaseDate := { year := none, month := none, day := none }, discs := none }

/-- C5: the sequential-indexing loop, run on tracks with within-disc
indices `[1, 2, 5]`, assigns overall sequence indices `[1, 2, 5]` —
the counter is advanced to a within-disc index that exceeds it, so the
gap is preserved, not compacted — and the counter ends at 6; the same
holds through `get_album_info`'s surrounding loop on the wire-level
payload. -/
theorem C5_sequential_indexing :
    (indexTracks none 1 c5_tracks).1.map (fun t => t.index) =
      [some 1, some 2, some 5] ∧
    (indexTracks none 1 c5_tracks).2 = 6 ∧
    (get_album_info VocaDBPlugin_config c5_item (Fetched.payload c5_wiretracks)).map
        (fun ai => ai.tracks.map (fun t => t.index)) =
      Except.ok [some 1, some 2, some 5] := by
  refine ⟨rfl, rfl, rfl⟩

/-- A producer list of any length other than one leaves the
disambiguation state untouched (the `len(producers) == 1` guard of
line 209). -/
theorem producersTier_skip (orig : String) (producers : List WireAlbumArtist)
    (st : ResolveState) (h : producers.length ≠ 1) :
    producersTier orig producers st = st := by
  rcases producers with _ | ⟨p, _ | ⟨q, r⟩⟩
  · rfl
  · exact absurd rfl h
  · rfl

/-- C6: in the producers priority tier, a single non-support producer
credit is adopted — its name (nested artist name when present, bare name
otherwise) becomes the resolved artist, the original artist string
becomes the credit override, `artist_corrected` is set, and the
remaining priority entries are never consulted (the result is
independent of `rest` and of the circle candidates); with zero or more
than one producer the tier changes nothing and the loop moves on to the
next priority entry. -/
theorem C6_producers_tier :
    (∀ (ex : List String) (circles : List WireAlbumArtist) (orig : String)
        (st : ResolveState) (p : WireAlbumArtist) (rest : List String),
      priorityLoop ex [p] circles orig st ("producers" :: rest) =
        { artist := (match p.artist with | some ar => ar.name | none => p.name)
          artist_id := (match p.artist with | some ar => some ar.id | none => none)
          artist_credit := some orig
          artist_corrected := true }) ∧
    (∀ (orig : String) (producers : List WireAlbumArtist) (st : ResolveState),
      producers.length ≠ 1 → producersTier orig producers st = st) ∧
    (∀ (ex : List String) (producers circles : List WireAlbumArtist) (orig : String)
        (st : ResolveState) (rest : List String),
      producers.length ≠ 1 → st.artist_corrected = false →
      priorityLoop ex producers circles orig st ("producers" :: rest) =
        priorityLoop ex producers circles orig st rest) := by
  refine ⟨?_, producersTier_skip, ?_⟩
  · intro ex circles orig st p rest
    cases hp : p.artist <;> simp [priorityLoop, producersTier, hp]
  · intro ex producers circles orig st rest h hcor
    simp [priorityLoop, producersTier_skip orig producers st h, hcor]

/-- Witness for C6: the zero-producer tier applied concretely — the
state is unchanged and the priority loop falls through to the rest of
the priority list. -/
theorem C6_witness :
    producersTier "O" [] ⟨"O", none, none, false⟩ = ⟨"O", none, none, false⟩ ∧
    priorityLoop [] [] [] "O" ⟨"O", none, none, false⟩ ["producers"] =
      priorityLoop [] [] [] "O" ⟨"O", none, none, false⟩ [] := by
  constructor
  · exact C6_producers_tier.2.1 "O" [] ⟨"O", none, none, false⟩ (by decide)
  · exact C6_producers_tier.2.2 [] [] [] "O" ⟨"O", none, none, false⟩ []
      (by decide) rfl

/-- A song payload for the C7 instance. -/
def c7_song (t : String) (n : Int) : WireSong :=
  { names := none, defaultName := t, defaultNameLanguage := "English",
    id := n, artistString := "S", lengthSeconds := 100, artists := [] }

/-- A plain album payload for the C7 instance. -/
def c7_item : WireAlbum :=
  { names := none, defaultName := "Album7", defaultNameLanguage := "English",
    id := 9, catalogNumber := none, artistString := "A", discType := "Album",
    artists := some [],
    releaseDate := { year := none, month := none, day := none }, discs := none }

/-- The C7 track batch: the middle payload has no nested `song`
object. -/
def c7_wiretracks : List WireTrack :=
  [ { song := some (c7_song "T1" 1), discNumber := 1, trackNumber := 1 },
    { song := none, discNumber := 1, trackNumber := 2 },
    { song := some (c7_song "T3" 3), discNumber := 1, trackNumber := 3 } ]

/-- C7: a track payload without a nested `song` object converts to the
placeholder track (sentinel title `dummy_title`, id 0) instead of
aborting; run through `get_album_info`, the placeholder still receives
an overall sequence index from the surrounding loop, and the sibling
tracks before and after it are all processed. -/
theorem C7_placeholder :
    get_track_info VocaDBPlugin_config
        { song := none, discNumber := 1, trackNumber := 2 } = dummyTrack ∧
    dummyTrack.title = "dummy_title" ∧
    dummyTrack.track_id = 0 ∧
    (get_album_info VocaDBPlugin_config c7_item (Fetched.payload c7_wiretracks)).map
        (fun ai => ai.tracks.map (fun t => (t.title, t.track_id, t.index))) =
      Except.ok [("T1", 1, some 1), ("dummy_title", 0, some 2), ("T3", 3, some 3)] := by
  refine ⟨rfl, rfl, rfl, rfl⟩

/-- C8 counterexample: the source pattern on line 58 has a leading `\b`,
so `cd 1` inside the word `abcd 1` is not stripped; the claim's pattern
`(CD|disc)\s*\d+`, with no word-boundary requirement, would strip it and
produce `ab`.  The code leaves the query unchanged. -/
theorem C8_counterexample :
    normalize_query "abcd 1" = "abcd 1" ∧
    claim_normalize "abcd 1" = "ab" ∧
    ("abcd 1" : String) ≠ "ab" := by
  refine ⟨rfl, rfl, by decide⟩

/-- C8 (amended): normalization replaces every maximal run of non-word
characters with a single space — afterwards every character is a word
character or a space and no two spaces are adjacent — and then
case-insensitively strips tokens matching `(CD|disc)\s*\d+` that start
at a word boundary, with no other transformation; in particular
`"Album! - disc 2"` normalizes to `"Album "`. -/
theorem C8_amended :
    normalize_query "Album! - disc 2" = "Album " ∧
    (∀ (q : String), ∀ c ∈ wordSub q.toList, isWordChar c = true ∨ c = ' ') ∧
    (∀ (q : String),
      List.Chain' (fun a b => ¬(a = ' ' ∧ b = ' ')) (wordSub q.toList)) := by
  refine ⟨rfl, ?_, ?_⟩
  · intro q c hc
    exact collapseGo_mem q.toList false c hc
  · intro q
    exact collapseGo_chain q.toList false

/-- Witness for C8 (amended): the word-or-space invariant applied to the
character `a` of the normalized form of `"a! b"`. -/
theorem C8_amended_witness :
    (isWordChar 'a' = true ∨ 'a' = ' ') ∧
    List.Chain' (fun a b => ¬(a = ' ' ∧ b = ' ')) (wordSub "a! b".toList) := by
  constructor
  · exact C8_amended.2.1 "a! b" 'a' (by decide)
  · exact C8_amended.2.2 "a! b"

/-- Track conversion ignores the adapter's base URL: only the language
preference and separator configuration are read. -/
theorem get_track_info_base_url (cfg : Config) (b : String) :
    get_track_info { cfg with base_url := b } = get_track_info cfg := by
  funext wt
  cases h : wt.song <;> simp [get_track_info, h]

/-- Artist disambiguation ignores the adapter's base URL. -/
theorem resolveArtist_base_url (cfg : Config) (b : String) (item : WireAlbum) :
    resolveArtist { cfg with base_url := b } item = resolveArtist cfg item := by
  unfold resolveArtist
  cases item.artists <;> simp

/-- C9: the UtaiteDB variant's configuration differs from the VocaDB one
only in its base URL; every track and every album either variant
produces carries the data source tag `VocaDB`; changing the base URL
changes nothing in the produced album but its `data_url`; the weighted
distance contribution is present exactly for candidates carrying that
tag; and the post-import genre hook runs exactly for album tasks whose
first item carries that tag. -/
theorem C9_variant_indistinguishable :
    UtaiteDBPlugin_config =
      { VocaDBPlugin_config with base_url := "http://utaitedb.net" } ∧
    (∀ (cfg : Config) (wt : WireTrack),
      (get_track_info cfg wt).data_source = "VocaDB") ∧
    (∀ (cfg : Config) (item : WireAlbum) (tr : Fetched (List WireTrack)),
      (get_album_info cfg item tr).map (fun ai => ai.data_source) =
        (get_album_info cfg item tr).map (fun _ => "VocaDB")) ∧
    (∀ (cfg : Config) (b : String) (item : WireAlbum) (tr : Fetched (List WireTrack)),
      get_album_info { cfg with base_url := b } item tr =
        (get_album_info cfg item tr).map
          (fun ai => { ai with data_url := b ++ "/AL/" ++ toString item.id })) ∧
    (∀ (cfg : Config) (ai : AlbumInfo),
      album_distance cfg ai = [] ∨
        (ai.data_source = "VocaDB" ∧
          album_distance cfg ai = [("source", cfg.source_weight)])) ∧
    (∀ (is_album : Bool) (ds : Option String),
      imported_runs is_album ds = true ↔ (is_album = true ∧ ds = some "VocaDB")) := by
  refine ⟨rfl, ?_, ?_, ?_, ?_, ?_⟩
  · intro cfg wt
    cases h : wt.song <;> simp [get_track_info, h, dummyTrack]
  · intro cfg item tr
    unfold get_album_info
    cases item.artists <;> cases tr <;> simp only [tracks_for_album_id] <;> rfl
  · intro cfg b item tr
    unfold get_album_info
    rw [resolveArtist_base_url]
    cases item.artists <;> cases tr <;>
      simp only [tracks_for_album_id, get_track_info_base_url, Except.map]
  · intro cfg ai
    by_cases h : ai.data_source = "VocaDB"
    · exact Or.inr ⟨h, by simp [album_distance, h]⟩
    · exact Or.inl (by simp [album_distance, h])
  · intro is_album ds
    simp [imported_runs]

/-- C10: when the fetched tag payload decodes but has no `tags` field,
or an empty tag list, the genre written back to the host record — and
persisted by the store call — is the empty string, overwriting whatever
genre the record held before. -/
theorem C10_empty_tags :
    (∀ (cfg : Config) (lgResolve : List String → String) (item : HostItem),
      add_genre_to_item cfg lgResolve (Fetched.payload { tags := none }) item =
        Except.ok ({ item with genre := "" }, true)) ∧
    (∀ (cfg : Config) (lgResolve : List String → String) (item : HostItem),
      add_genre_to_item cfg lgResolve (Fetched.payload { tags := some [] }) item =
        Except.ok ({ item with genre := "" }, true)) := by
  constructor <;> intro cfg lg item <;> rfl
